import Mathlib

/-
Verification of the eventsourced runtime (eventsourced/src/lib.rs) and the
snapshot-store adapters (eventsourced-postgres/src/snapshot_store.rs and
eventsourced-nats/src/snapshot_store.rs) against the natural-language
specification.

The core runtime is embedded shallowly: the user-supplied `EventSourced`
behavior becomes a record of pure functions, the entity state becomes an
explicit record, and the storage collaborators become explicit state threaded
through each operation.  Calls made by the runtime to the behavior and the
stores are recorded in an explicit trace so that call-order properties are
statable.
-/

namespace ES

/-- Embedding of the `EventSourced` trait (lib.rs lines 28-49).
`handleCmd` takes `&self`, so it is a pure function of the behavior value and
the command; `handleEvt` takes `&mut self`, so it returns the updated behavior
value together with the optional snapshot state; `setState` likewise returns
the updated behavior value. -/
structure Behavior (Cmd Evt State B Err : Type) where
  handleCmd : B → Cmd → Except Err (List Evt)
  handleEvt : B → Nat → Evt → B × Option State
  setState : B → State → B

/-- A call made by the runtime to a storage collaborator or to the behavior
event handler, recorded in traces. -/
inductive Call (Evt State : Type) where
  | persistCall (evts : List Evt) (expectedLastSeqNo : Nat)
  | handleEvtCall (seqNo : Nat) (evt : Evt)
  | saveCall (seqNo : Nat) (state : State)
  deriving DecidableEq

/-- True exactly for snapshot-store save calls. -/
def Call.isSave {Evt State : Type} : Call Evt State → Bool
  | .saveCall _ _ => true
  | _ => false

/-- Modelled from the spec: the event-log journal of a single entity.  The
`EvtLog` implementations are not part of the sources under verification (the
`evt_log` module and the adapters' event logs are absent), so the journal is
modelled from the contract of spec section 4.2 as an in-memory list of
`(seqNo, event)` pairs. -/
abbrev Journal (Evt : Type) := List (Nat × Evt)

/-- Modelled from the spec: `EvtLog::persist` appends the batch as a
contiguous run whose first assigned sequence number is
`expected_last_seq_no + 1` (spec section 4.2). -/
def persist {Evt : Type} (log : Journal Evt) (evts : List Evt)
    (expectedLastSeqNo : Nat) : Journal Evt :=
  log ++ (List.range' (expectedLastSeqNo + 1) evts.length).zip evts

/-- Modelled from the spec: `EvtLog::last_seq_no` returns 0 if the entity has
no events, otherwise the largest stored sequence number (spec section 4.2). -/
def lastSeqNo {Evt : Type} (log : Journal Evt) : Nat :=
  log.foldl (fun a p => max a p.1) 0

/-- Modelled from the spec: `EvtLog::evts_by_id` yields exactly the events
with `from_seq_no ≤ seq_no ≤ to_seq_no`, in ascending order (spec
section 4.2).  On a well-formed contiguous journal the stored order is
ascending, so filtering preserves it. -/
def evtsById {Evt : Type} (log : Journal Evt) (fromSeqNo toSeqNo : Nat) :
    Journal Evt :=
  log.filter (fun p => decide (fromSeqNo ≤ p.1) && decide (p.1 ≤ toSeqNo))

/-- A contiguous journal holding `evts` at sequence numbers `1..evts.length`,
as guaranteed by the invariants of spec section 3. -/
def mkLog {Evt : Type} (evts : List Evt) : Journal Evt :=
  (List.range' 1 evts.length).zip evts

/-- The `Entity` record (lib.rs lines 57-65).  The id is kept as a natural
number standing for the `Uuid`; the log and snapshot store appear as explicit
state in `Sys` below, and the codec functions are not needed because the
in-memory stores hold domain values directly. -/
structure Entity (B : Type) where
  id : Nat
  seqNo : Nat
  eventSourced : B

/-- The entity together with the state of its two storage collaborators: the
journal of its event log and the (at most one, spec section 4.3) snapshot
held for it by the snapshot store. -/
structure Sys (Evt State B : Type) where
  entity : Entity B
  log : Journal Evt
  store : Option (Nat × State)

/-- Result of applying a batch of freshly persisted events
(lib.rs lines 217-221). -/
structure ApplyResult (Evt State B : Type) where
  b : B
  seqNo : Nat
  snap : Option State
  trace : List (Call Evt State)

/-- The fold of lib.rs lines 218-221: for each event, increment `seq_no`,
call `handle_evt` with the incremented value, and combine the returned
snapshot option with the accumulator via `Option::or`, so the latest
`Some` wins. -/
def applyEvts {Cmd Evt State B Err : Type} (bh : Behavior Cmd Evt State B Err) :
    B → Nat → Option State → List Evt → ApplyResult Evt State B
  | b, s, st, [] => ⟨b, s, st, []⟩
  | b, s, st, evt :: rest =>
      let s' := s + 1
      let (b', r) := bh.handleEvt b s' evt
      let st' := match r with
        | some x => some x
        | none => st
      let res := applyEvts bh b' s' st' rest
      ⟨res.b, res.seqNo, res.snap, .handleEvtCall s' evt :: res.trace⟩

/-- Embedding of `Entity::handle_cmd` (lib.rs lines 190-239) together with
the reply it produces.  The in-memory stores never fail, so the fatal
persistence/save error path of the source is never taken here.  Returns the
updated system state, the reply sent on the one-shot channel, and the trace
of collaborator calls. -/
def entityStep {Cmd Evt State B Err : Type} (bh : Behavior Cmd Evt State B Err)
    (sys : Sys Evt State B) (cmd : Cmd) :
    Sys Evt State B × Except Err (List Evt) × List (Call Evt State) :=
  match bh.handleCmd sys.entity.eventSourced cmd with
  | .error e => (sys, .error e, [])
  | .ok evts =>
    if evts.isEmpty then
      (sys, .ok evts, [])
    else
      let log' := persist sys.log evts sys.entity.seqNo
      let res := applyEvts bh sys.entity.eventSourced sys.entity.seqNo none evts
      match res.snap with
      | some st =>
          (⟨⟨sys.entity.id, res.seqNo, res.b⟩, log', some (res.seqNo, st)⟩,
            .ok evts,
            .persistCall evts sys.entity.seqNo :: res.trace
              ++ [.saveCall res.seqNo st])
      | none =>
          (⟨⟨sys.entity.id, res.seqNo, res.b⟩, log', sys.store⟩,
            .ok evts,
            .persistCall evts sys.entity.seqNo :: res.trace)

/-- The run loop of lib.rs lines 169-185 over a finite list of received
commands, collecting the replies in order.  With in-memory stores
`entityStep` never hits the fatal break, so every command is serviced. -/
def runLoop {Cmd Evt State B Err : Type} (bh : Behavior Cmd Evt State B Err)
    (sys : Sys Evt State B) :
    List Cmd → Sys Evt State B × List (Except Err (List Evt))
  | [] => (sys, [])
  | cmd :: rest =>
      let step := entityStep bh sys cmd
      let next := runLoop bh step.1 rest
      (next.1, step.2.1 :: next.2)

/-- Number of events reported by one reply: the length of the event list for
an accepted command, 0 for a rejected one. -/
def replyEvtCount {Evt Err : Type} : Except Err (List Evt) → Nat
  | .ok evts => evts.length
  | .error _ => 0

/-- The system state of a freshly spawned entity over empty stores:
no snapshot, empty journal, sequence number 0. -/
def initSys {Evt State B : Type} (id : Nat) (b0 : B) : Sys Evt State B :=
  ⟨⟨id, 0, b0⟩, [], none⟩

end ES

namespace ES

/-- A snapshot as loaded by the core from the snapshot store during spawn
(destructured in lib.rs lines 117-127): sequence number, state, and the
optional opaque metadata token handed on to the event log. -/
structure Snapshot (State M : Type) where
  seqNo : Nat
  state : State
  metadata : Option M

/-- The `SpawnEntityError` enum (lib.rs lines 243-264).  It has exactly four
variants: `LoadSnapshot` and the three event-log failures.  There is no
variant for inconsistent stores. -/
inductive SpawnEntityError (LErr SErr : Type) where
  | loadSnapshot (e : SErr)
  | lastSeqNo (e : LErr)
  | evtsById (e : LErr)
  | nextEvt (e : LErr)

/-- Outcome of `Entity::spawn`: a constructed entity, a structured
`SpawnEntityError` returned to the caller, or a panic raised by one of the
`assert!` macros in the function body. -/
inductive SpawnOutcome (B LErr SErr : Type) where
  | ok (entity : Entity B)
  | err (e : SpawnEntityError LErr SErr)
  | panicked (msg : String)

/-- True exactly when spawn returned a structured `SpawnEntityError`. -/
def SpawnOutcome.isErr {B LErr SErr : Type} : SpawnOutcome B LErr SErr → Bool
  | .err _ => true
  | _ => false

/-- The sequence number of the constructed entity, when spawn succeeded. -/
def SpawnOutcome.seqNoOf {B LErr SErr : Type} : SpawnOutcome B LErr SErr → Option Nat
  | .ok e => some e.seqNo
  | _ => none

/-- The replay loop of lib.rs lines 147-150: each event pulled from the
stream is handed to `handle_evt`; the snapshot option it returns is
discarded.  The calls are recorded in a trace. -/
def replay {Cmd Evt State B Err : Type} (bh : Behavior Cmd Evt State B Err) :
    B → Journal Evt → B × List (Call Evt State)
  | b, [] => (b, [])
  | b, (s, evt) :: rest =>
      let (b', _) := bh.handleEvt b s evt
      let res := replay bh b' rest
      (res.1, .handleEvtCall s evt :: res.2)

/-- Embedding of `Entity::spawn` (lib.rs lines 89-188), recovery part.  The
snapshot-store load is passed in as a result value so that its failure path
(`SpawnEntityError::LoadSnapshot`) is representable; the event log appears as
an in-memory journal, whose `last_seq_no` and `evts_by_id` calls cannot fail.
When the `assert!` of lib.rs lines 135-138 fires, the outcome is a panic
carrying the assertion message, not a returned error. -/
def spawn {Cmd Evt State B Err M LErr SErr : Type}
    (bh : Behavior Cmd Evt State B Err) (id : Nat) (b0 : B)
    (loadRes : Except SErr (Option (Snapshot State M)))
    (log : Journal Evt) :
    SpawnOutcome B LErr SErr × List (Call Evt State) :=
  match loadRes with
  | .error e => (.err (.loadSnapshot e), [])
  | .ok snap =>
      let restored : B × Nat :=
        match snap with
        | some s => (bh.setState b0 s.state, s.seqNo)
        | none => (b0, 0)
      let last := lastSeqNo log
      if restored.2 ≤ last then
        let r :=
          if restored.2 < last then
            replay bh restored.1 (evtsById log (restored.2 + 1) last)
          else (restored.1, [])
        (.ok ⟨id, last, r.1⟩, r.2)
      else
        (.panicked "snapshot_seq_no must be less than or equal to last_seq_no", [])

end ES

namespace ES

/-- Outcome of awaiting the one-shot reply after a command was handed to the
entity task: either the sender was dropped without a reply (the task died
mid-command) or a reply arrived. -/
inductive ReplyOutcome (Evt Err : Type) where
  | dropped
  | replied (r : Except Err (List Evt))

/-- Outcome of the attempt to send a command on the entity's channel: either
the channel is closed (the entity already terminated) or the command is
delivered and eventually produces a reply outcome. -/
inductive SendOutcome (Evt Err : Type) where
  | closed
  | delivered (r : ReplyOutcome Evt Err)

/-- The `EntityRefError` enum (lib.rs lines 294-318): `InvalidCommand`
carries the behavior's domain error, `SendCmd` wraps the channel send error,
`EntityTerminated` wraps the one-shot receive error. -/
inductive EntityRefError (Err : Type) where
  | invalidCommand (e : Err)
  | sendCmd
  | entityTerminated

/-- Embedding of `EntityRef::handle_cmd` (lib.rs lines 286-290).  The first
`?` converts a failed channel send into `SendCmd` via its `From` impl; the
second `?` converts a one-shot receive failure into `EntityTerminated`; a
received `Err` from the command handler is mapped to `InvalidCommand`.  The
channel interaction itself is abstracted into the observed outcome. -/
def entityRefHandleCmd {Evt Err : Type} :
    SendOutcome Evt Err → Except (EntityRefError Err) (List Evt)
  | .closed => .error .sendCmd
  | .delivered .dropped => .error .entityTerminated
  | .delivered (.replied (.error e)) => .error (.invalidCommand e)
  | .delivered (.replied (.ok evts)) => .ok evts

end ES

namespace SS

/-- Modelled from the spec: `SeqNo`, a positive integer sequence number
(spec section 3).  The defining module of the core crate is not under the
sources being verified; only its contract is given by the spec. -/
abbrev SeqNo := {n : Nat // n ≠ 0}

/-- Modelled from the spec: conversion from an untrusted `u64` to `SeqNo`
fails when the value is 0 (spec section 3). -/
def SeqNo.tryFromNat (n : Nat) : Except Unit SeqNo :=
  if h : n = 0 then .error () else .ok ⟨n, h⟩

/-- The snapshot value returned by the adapter stores
(`Snapshot::new(seq_no, state)` at snapshot_store.rs line 125 of the
Postgres adapter and line 143 of the NATS adapter). -/
structure Snapshot (S : Type) where
  seqNo : SeqNo
  state : S

end SS

namespace Pg

/-- Modelled from the spec: the error enum of the eventsourced-postgres
crate (its crate root is not under the sources being verified).  Only the
variants raised by snapshot_store.rs are included, without their payloads. -/
inductive Error where
  | getConnection
  | postgres
  | toBytes
  | fromBytes
  | zeroSeqNo
  deriving DecidableEq

/-- One row of the snapshots table: entity id (standing for the `uuid`
column), the `seq_no` stored as a signed 64-bit integer, and the state
bytes. -/
structure Row (β : Type) where
  id : Nat
  seqNo : Int
  state : β
  deriving DecidableEq

/-- The `as i64` cast applied to `seq_no.as_u64()` at snapshot_store.rs
line 89: two's-complement reinterpretation of a `u64` as an `i64`. -/
def u64ToI64 (n : Nat) : Int :=
  if n < 2 ^ 63 then (n : Int) else (n : Int) - 2 ^ 64

/-- The `as u64` cast applied to the `i64` read back from the `seq_no`
column at snapshot_store.rs line 118. -/
def i64ToU64 (v : Int) : Nat :=
  (v.emod (2 ^ 64)).toNat

/-- `PostgresSnapshotStore::save` (snapshot_store.rs lines 70-94): serialize
the state (`Error::ToBytes` on failure), then execute
`INSERT INTO snapshots VALUES ($1, $2, $3)` — a plain insert appending one
row to the table. -/
def save {β γ σ : Type} (tbl : List (Row β)) (id : Nat) (seqNo : SS.SeqNo)
    (st : σ) (toBytes : σ → Except γ β) : Except Error (List (Row β)) :=
  match toBytes st with
  | .error _ => .error .toBytes
  | .ok bytes => .ok (tbl ++ [⟨id, u64ToI64 seqNo.val, bytes⟩])

/-- The single row selected by the query of snapshot_store.rs lines 110-113:
among the rows of the given id, the one whose `seq_no` equals the maximum
for that id (ties cannot occur under the (id, seq_no) primary key). -/
def maxRow {β : Type} (rows : List (Row β)) : Option (Row β) :=
  rows.foldl
    (fun best r =>
      match best with
      | none => some r
      | some b => if b.seqNo < r.seqNo then some r else some b)
    none

/-- `PostgresSnapshotStore::load` (snapshot_store.rs lines 96-128): select
the max-seq_no row for the id; if none, return no snapshot; otherwise
convert the `i64` back to a `u64` and then to `SeqNo`
(`Error::ZeroSeqNo` on failure), then decode the state bytes
(`Error::FromBytes` on failure). -/
def load {β γ σ : Type} (tbl : List (Row β)) (id : Nat)
    (fromBytes : β → Except γ σ) : Except Error (Option (SS.Snapshot σ)) :=
  match maxRow (tbl.filter (fun r => decide (r.id = id))) with
  | none => .ok none
  | some row =>
      match SS.SeqNo.tryFromNat (i64ToU64 row.seqNo) with
      | .error _ => .error .zeroSeqNo
      | .ok seqNo =>
          match fromBytes row.state with
          | .error _ => .error .fromBytes
          | .ok st => .ok (some ⟨seqNo, st⟩)

/-- The SQL string executed by save (snapshot_store.rs line 88), as
whitespace-separated tokens. -/
def insertSqlTokens : List String :=
  ["INSERT", "INTO", "snapshots", "VALUES", "($1,", "$2,", "$3)"]

/-- The SQL string executed by load (snapshot_store.rs lines 110-112), as
whitespace-separated tokens. -/
def selectSqlTokens : List String :=
  ["SELECT", "seq_no,", "state", "FROM", "snapshots", "WHERE", "id", "=",
    "$1", "AND", "seq_no", "=", "(select", "max(seq_no)", "from",
    "snapshots", "where", "id", "=", "$1)"]

/-- Modelled from the spec: the DDL of create_snapshot_store.sql (the file
is not under the sources being verified), as whitespace-separated tokens.
Spec section 6 gives the relational layout: one table
snapshots(id, seq_no, bytes) with primary key (id, seq_no). -/
def createSqlTokens : List String :=
  ["CREATE", "TABLE", "IF", "NOT", "EXISTS", "snapshots", "(id", "uuid,",
    "seq_no", "bigint,", "state", "bytea,", "PRIMARY", "KEY", "(id,",
    "seq_no))"]

/-- The `.replace("snapshots", &config.snapshots_table)` of
snapshot_store.rs line 46, at token level: every token equal to the pattern
is replaced. -/
def replaceToken (tokens : List String) (pat repl : String) : List String :=
  tokens.map (fun t => if t = pat then repl else t)

/-- The configuration of the Postgres snapshot store
(snapshot_store.rs lines 134-152). -/
structure Config where
  host : String
  port : Nat
  user : String
  password : String
  dbname : String
  sslmode : String
  snapshotsTable : String
  setup : Bool

/-- The store value constructed by `PostgresSnapshotStore::new`
(snapshot_store.rs line 53): it retains only the connection pool; the
configured table name is not kept anywhere in the store. -/
structure PostgresSnapshotStore where
  cnnPool : Unit

/-- The store built from a configuration by `new`: whatever the
configuration says, the resulting store holds no table name. -/
def storeOfConfig (_ : Config) : PostgresSnapshotStore := ⟨()⟩

/-- The DDL executed by `new` when `setup` is set
(snapshot_store.rs lines 39-51): the literal file contents with every
occurrence of "snapshots" replaced by the configured table name. -/
def setupSqlTokens (cfg : Config) : List String :=
  replaceToken createSqlTokens "snapshots" cfg.snapshotsTable

/-- The SQL issued by save on a constructed store: the literal insert
statement, independent of any configuration. -/
def saveSqlTokensOf (_ : PostgresSnapshotStore) : List String :=
  insertSqlTokens

/-- The SQL issued by load on a constructed store: the literal select
statement, independent of any configuration. -/
def loadSqlTokensOf (_ : PostgresSnapshotStore) : List String :=
  selectSqlTokens

/-- The token following the first occurrence of the given marker token: for
"INTO" the inserted-into table, for "FROM" the selected-from table, for
"EXISTS" the created table. -/
def tableAfter (tokens : List String) (marker : String) : Option String :=
  ((tokens.dropWhile (fun t => t != marker)).drop 1).head?

end Pg

namespace NatsSS

/-- Modelled from the spec: the error enum of the eventsourced-nats crate
(its crate root is not under the sources being verified).  Only the variants
raised by snapshot_store.rs are included, without their payloads. -/
inductive Error where
  | nats
  | intoBytes
  | decodeSnapshot
  | fromBytes
  | invalidSeqNo
  deriving DecidableEq

/-- The generated protobuf snapshot message (snapshot_store.rs lines 92-95
and spec section 6): a message of two fields, `seq_no` as `uint64` and the
state bytes.  Encoding and decoding are modelled as the identity on this
structured value, reflecting the prost round-trip. -/
structure ProtoSnapshot (β : Type) where
  seqNo : Nat
  state : β

/-- The KV bucket keyed by the stringified entity id (modelled as the id
itself). -/
abbrev KV (β : Type) := Nat → Option (ProtoSnapshot β)

/-- `NatsSnapshotStore::save` (snapshot_store.rs lines 78-111): serialize
the state (`Error::IntoBytes` on failure), wrap it with the sequence number
in a protobuf snapshot message, and `put` it under the id's key —
overwriting whatever entry the bucket held for that key. -/
def save {β γ σ : Type} (kv : KV β) (id : Nat) (seqNo : SS.SeqNo) (st : σ)
    (toBytes : σ → Except γ β) : Except Error (KV β) :=
  match toBytes st with
  | .error _ => .error .intoBytes
  | .ok bytes =>
      .ok (fun k => if k = id then some ⟨seqNo.val, bytes⟩ else kv k)

/-- `NatsSnapshotStore::load` (snapshot_store.rs lines 113-157): get the
entry for the id's key; if none, return no snapshot; otherwise decode the
state bytes (`Error::FromBytes` on failure) and then convert the stored
`u64` to `SeqNo` (`Error::InvalidSeqNo` on failure). -/
def load {β γ σ : Type} (kv : KV β) (id : Nat)
    (fromBytes : β → Except γ σ) : Except Error (Option (SS.Snapshot σ)) :=
  match kv id with
  | none => .ok none
  | some p =>
      match fromBytes p.state with
      | .error _ => .error .fromBytes
      | .ok st =>
          match SS.SeqNo.tryFromNat p.seqNo with
          | .error _ => .error .invalidSeqNo
          | .ok s => .ok (some ⟨s, st⟩)

end NatsSS

namespace ES

/-- Helper lemma: applying a batch advances the sequence number by exactly
the length of the batch. -/
theorem applyEvts_seqNo {Cmd Evt State B Err : Type}
    (bh : Behavior Cmd Evt State B Err) :
    ∀ (evts : List Evt) (b : B) (s : Nat) (st : Option State),
      (applyEvts bh b s st evts).seqNo = s + evts.length := by
  intro evts
  induction evts with
  | nil => intro b s st; simp [applyEvts]
  | cons e rest ih =>
      intro b s st
      simp only [applyEvts]
      rw [ih]
      simp [Nat.add_comm, Nat.add_assoc, Nat.add_left_comm]

end ES

namespace ES

/-- Helper lemma: the sequence numbers of a journal after a persist are the
old sequence numbers followed by the contiguous run assigned to the batch. -/
theorem map_fst_persist {Evt : Type} (log : Journal Evt) (evts : List Evt)
    (m : Nat) :
    (persist log evts m).map Prod.fst
      = log.map Prod.fst ++ List.range' (m + 1) evts.length := by
  unfold persist
  rw [List.map_append, List.map_fst_zip]
  simp [List.length_range']

/-- Helper lemma: the largest element of the contiguous range `1..n` is `n`. -/
theorem foldl_max_range' : ∀ n : Nat, List.foldl max 0 (List.range' 1 n) = n := by
  intro n
  induction n with
  | zero => rfl
  | succ k ih =>
      rw [List.range'_1_concat, List.foldl_append, ih]
      simp [Nat.max_def]
      omega

/-- Helper lemma: on a journal whose sequence numbers are exactly `1..n`,
`last_seq_no` returns `n`. -/
theorem lastSeqNo_of_wf {Evt : Type} (log : Journal Evt) (n : Nat)
    (h : log.map Prod.fst = List.range' 1 n) : lastSeqNo log = n := by
  have h1 : lastSeqNo log = List.foldl max 0 (log.map Prod.fst) := by
    unfold lastSeqNo
    rw [List.foldl_map]
  rw [h1, h, foldl_max_range']

/-- Helper lemma: one run-loop iteration advances the sequence number by the
number of events in the reply and appends exactly that contiguous run of
sequence numbers to the journal. -/
theorem entityStep_seqNo_log {Cmd Evt State B Err : Type}
    (bh : Behavior Cmd Evt State B Err) (sys : Sys Evt State B) (cmd : Cmd) :
    ((entityStep bh sys cmd).1).entity.seqNo
        = sys.entity.seqNo + replyEvtCount (entityStep bh sys cmd).2.1 ∧
      ((entityStep bh sys cmd).1).log.map Prod.fst
        = sys.log.map Prod.fst
            ++ List.range' (sys.entity.seqNo + 1)
                (replyEvtCount (entityStep bh sys cmd).2.1) := by
  unfold entityStep
  cases h : bh.handleCmd sys.entity.eventSourced cmd with
  | error e => simp [replyEvtCount]
  | ok evts =>
      cases evts with
      | nil => simp [replyEvtCount]
      | cons e rest =>
          simp only [List.isEmpty_cons, Bool.false_eq_true, if_false]
          cases hsnap :
              (applyEvts bh sys.entity.eventSourced sys.entity.seqNo none
                (e :: rest)).snap with
          | some st =>
              simp [hsnap, replyEvtCount, applyEvts_seqNo, map_fst_persist]
          | none =>
              simp [hsnap, replyEvtCount, applyEvts_seqNo, map_fst_persist]

/-- Helper lemma: the run-loop invariant.  If the journal holds exactly the
sequence numbers `1..seq_no`, then after any list of commands it holds
exactly `1..seq_no'`, where `seq_no'` grew by the total number of events
reported in the replies. -/
theorem runLoop_inv {Cmd Evt State B Err : Type}
    (bh : Behavior Cmd Evt State B Err) :
    ∀ (cmds : List Cmd) (sys : Sys Evt State B),
      sys.log.map Prod.fst = List.range' 1 sys.entity.seqNo →
      (runLoop bh sys cmds).1.log.map Prod.fst
          = List.range' 1 (runLoop bh sys cmds).1.entity.seqNo ∧
        (runLoop bh sys cmds).1.entity.seqNo
          = sys.entity.seqNo + ((runLoop bh sys cmds).2.map replyEvtCount).sum := by
  intro cmds
  induction cmds with
  | nil => intro sys h; simpa [runLoop] using h
  | cons cmd rest ih =>
      intro sys h
      have hstep := entityStep_seqNo_log bh sys cmd
      have hwf : ((entityStep bh sys cmd).1).log.map Prod.fst
          = List.range' 1 ((entityStep bh sys cmd).1).entity.seqNo := by
        rw [hstep.2, h, hstep.1]
        have happ := List.range'_append_1 1 sys.entity.seqNo
          (replyEvtCount (entityStep bh sys cmd).2.1)
        rw [Nat.add_comm 1 sys.entity.seqNo] at happ
        rw [happ]
        congr 1
        omega
      have hrest := ih (entityStep bh sys cmd).1 hwf
      constructor
      · simpa [runLoop] using hrest.1
      · simp only [runLoop, List.map_cons, List.sum_cons]
        rw [hrest.2, hstep.1]
        omega

end ES

namespace ES

/-- Helper lemma: the trace of a replay lists exactly one `handle_evt` call
per journal entry, in journal order, and nothing else. -/
theorem replay_snd {Cmd Evt State B Err : Type}
    (bh : Behavior Cmd Evt State B Err) :
    ∀ (l : Journal Evt) (b : B),
      (replay bh b l).2 = l.map (fun p => Call.handleEvtCall p.1 p.2) := by
  intro l
  induction l with
  | nil => intro b; simp [replay]
  | cons p rest ih =>
      intro b
      obtain ⟨s, evt⟩ := p
      simp [replay, ih]

/-- Helper lemma: the sequence numbers of a contiguous journal are exactly
`1..evts.length`. -/
theorem map_fst_mkLog {Evt : Type} (evts : List Evt) :
    (mkLog evts).map Prod.fst = List.range' 1 evts.length := by
  unfold mkLog
  rw [List.map_fst_zip]
  simp [List.length_range']

/-- Helper lemma: the last sequence number of a contiguous journal is its
length. -/
theorem lastSeqNo_mkLog {Evt : Type} (evts : List Evt) :
    lastSeqNo (mkLog evts) = evts.length :=
  lastSeqNo_of_wf _ _ (map_fst_mkLog evts)

/-- Helper lemma: on a contiguous journal, asking for the window from
`s + 1` to the end yields exactly the entries past position `s`, in order. -/
theorem evtsById_mkLog {Evt : Type} (evts : List Evt) (s : Nat)
    (hs : s ≤ evts.length) :
    evtsById (mkLog evts) (s + 1) evts.length
      = (List.range' (s + 1) (evts.length - s)).zip (evts.drop s) := by
  have h2 : (List.range' 1 s).length = (evts.take s).length := by
    simp [List.length_range', List.length_take]
    omega
  have h1 : List.range' 1 s ++ List.range' (s + 1) (evts.length - s)
      = List.range' 1 evts.length := by
    have happ := List.range'_append_1 1 s (evts.length - s)
    rw [Nat.add_comm 1 s] at happ
    rw [happ]
    congr 1
    omega
  have hzip : (List.range' 1 evts.length).zip evts
      = (List.range' 1 s).zip (evts.take s)
        ++ (List.range' (s + 1) (evts.length - s)).zip (evts.drop s) := by
    rw [← List.zip_append h2, h1, List.take_append_drop]
  unfold evtsById mkLog
  rw [hzip, List.filter_append]
  have h3 : List.filter
      (fun p => decide (s + 1 ≤ p.1) && decide (p.1 ≤ evts.length))
      ((List.range' 1 s).zip (evts.take s)) = [] := by
    apply List.filter_eq_nil_iff.mpr
    intro p hp
    obtain ⟨a, b⟩ := p
    have hA := (List.of_mem_zip hp).1
    rw [List.mem_range'_1] at hA
    simp only [Bool.and_eq_true, decide_eq_true_eq, not_and]
    omega
  have h4 : List.filter
      (fun p => decide (s + 1 ≤ p.1) && decide (p.1 ≤ evts.length))
      ((List.range' (s + 1) (evts.length - s)).zip (evts.drop s))
      = (List.range' (s + 1) (evts.length - s)).zip (evts.drop s) := by
    apply List.filter_eq_self.mpr
    intro p hp
    obtain ⟨a, b⟩ := p
    have hA := (List.of_mem_zip hp).1
    rw [List.mem_range'_1] at hA
    simp only [Bool.and_eq_true, decide_eq_true_eq]
    omega
  rw [h3, h4, List.nil_append]

end ES

namespace ES

/-- Helper lemma: spawning over a contiguous journal with a loaded snapshot
at position `s ≤ length` constructs the entity at the journal's last
sequence number and replays exactly the journal entries past position `s`
through the behavior installed from the snapshot state. -/
theorem spawn_some_eq {Cmd Evt State B Err M LErr SErr : Type}
    (bh : Behavior Cmd Evt State B Err) (id : Nat) (b0 : B)
    (evts : List Evt) (s : Nat) (stv : State) (md : Option M)
    (hs : s ≤ evts.length) :
    @spawn Cmd Evt State B Err M LErr SErr bh id b0
        (.ok (some ⟨s, stv, md⟩)) (mkLog evts)
      = (.ok ⟨id, evts.length,
            (replay bh (bh.setState b0 stv)
              ((List.range' (s + 1) (evts.length - s)).zip (evts.drop s))).1⟩,
          (replay bh (bh.setState b0 stv)
            ((List.range' (s + 1) (evts.length - s)).zip (evts.drop s))).2) := by
  have hlast := lastSeqNo_mkLog evts
  by_cases hlt : s < evts.length
  · have hwin := evtsById_mkLog evts s hs
    simp [spawn, hlast, hs, hlt, hwin]
  · have hse : s = evts.length := by omega
    subst hse
    simp [spawn, hlast, hlt, replay, Nat.sub_self]

/-- Helper lemma: spawning over a contiguous journal with no snapshot
constructs the entity at the journal's last sequence number and replays the
whole journal from the initial behavior value. -/
theorem spawn_none_eq {Cmd Evt State B Err M LErr SErr : Type}
    (bh : Behavior Cmd Evt State B Err) (id : Nat) (b0 : B)
    (evts : List Evt) :
    @spawn Cmd Evt State B Err M LErr SErr bh id b0
        (.ok (none : Option (Snapshot State M))) (mkLog evts)
      = (.ok ⟨id, evts.length, (replay bh b0 (mkLog evts)).1⟩,
          (replay bh b0 (mkLog evts)).2) := by
  have hlast := lastSeqNo_mkLog evts
  by_cases h0 : 0 < evts.length
  · have hwin := evtsById_mkLog evts 0 (Nat.zero_le _)
    simp only [Nat.zero_add, Nat.sub_zero, List.drop_zero] at hwin
    have hwin' : evtsById (mkLog evts) 1 evts.length = mkLog evts := hwin
    simp [spawn, hlast, h0, Nat.zero_le, hwin']
  · have hnil : evts = [] := List.eq_nil_of_length_eq_zero (by omega)
    subst hnil
    simp [spawn, mkLog, lastSeqNo, replay]

end ES

/-- C1: evaluation at the failing input.  The behavior produces a batch of
two events and returns `Some 100` from `handle_evt` only at sequence
number 1 (so p_m = 1 and m = 1).  The runtime writes exactly one snapshot,
with the state returned at sequence number 1, but at sequence number 2 (the
sequence number of the batch's last event, lib.rs lines 224-235), not at
sequence number 1 as the claim and the snapshot semantics require. -/
theorem c1_snapshot_seq_no_divergence :
    ES.entityStep
        (⟨fun _ _ => .ok [(), ()],
          fun b s _ => (b + 1, if s = 1 then some 100 else none),
          fun _ s => s⟩ : ES.Behavior Unit Unit Nat Nat Unit)
        (ES.initSys 0 0) ()
      = (⟨⟨0, 2, 2⟩, [(1, ()), (2, ())], some (2, 100)⟩,
          .ok [(), ()],
          [.persistCall [(), ()] 0, .handleEvtCall 1 (), .handleEvtCall 2 (),
            .saveCall 2 100]) :=
  rfl

/-- C8: the error mapping of `EntityRef::handle_cmd` is exact.
`InvalidCommand e` is returned precisely when the command was delivered and
the behavior replied with the domain error `e`; `SendCmd` precisely when the
command channel was closed; `EntityTerminated` precisely when the reply sink
was dropped without a reply. -/
theorem c8_ref_error_mapping {Evt Err : Type} (o : ES.SendOutcome Evt Err) :
    (∀ e : Err,
      ES.entityRefHandleCmd o = .error (.invalidCommand e)
        ↔ o = .delivered (.replied (.error e)))
    ∧ (ES.entityRefHandleCmd o = .error .sendCmd ↔ o = .closed)
    ∧ (ES.entityRefHandleCmd o = .error .entityTerminated
        ↔ o = .delivered .dropped) := by
  cases o with
  | closed => simp [ES.entityRefHandleCmd]
  | delivered r =>
      cases r with
      | dropped => simp [ES.entityRefHandleCmd]
      | replied r' =>
          cases r' with
          | ok evts => simp [ES.entityRefHandleCmd]
          | error e' =>
              refine ⟨fun e => ?_, by simp [ES.entityRefHandleCmd], by
                simp [ES.entityRefHandleCmd]⟩
              constructor
              · intro h
                simp only [ES.entityRefHandleCmd, Except.error.injEq,
                  ES.EntityRefError.invalidCommand.injEq] at h
                subst h
                rfl
              · intro h
                simp only [ES.SendOutcome.delivered.injEq,
                  ES.ReplyOutcome.replied.injEq, Except.error.injEq] at h
                subst h
                rfl

/-- C2 counterexample: with a loaded snapshot at sequence number 5 and an
event log whose last sequence number is 0, spawn does not return a structured
`SpawnEntityError` at all (there is no `Inconsistent` variant); it panics via
the `assert!` at lib.rs lines 135-138. -/
theorem c2_counterexample :
    (@ES.spawn Unit Unit Nat Nat Unit Unit Unit Unit
        ⟨fun _ _ => .ok [], fun b _ _ => (b, none), fun _ s => s⟩
        0 0 (.ok (some ⟨5, 42, none⟩)) []).1
      = (.panicked "snapshot_seq_no must be less than or equal to last_seq_no" :
          ES.SpawnOutcome Nat Unit Unit) ∧
      (@ES.spawn Unit Unit Nat Nat Unit Unit Unit Unit
          ⟨fun _ _ => .ok [], fun b _ _ => (b, none), fun _ s => s⟩
          0 0 (.ok (some ⟨5, 42, none⟩)) []).1.isErr = false :=
  ⟨rfl, rfl⟩

/-- C2 amended: if the loaded snapshot's sequence number exceeds the event
log's last sequence number, spawn panics with the assertion message
"snapshot_seq_no must be less than or equal to last_seq_no" (aborting the
spawning task) instead of returning a `SpawnEntityError`; the
`SpawnEntityError` enum has only the variants `LoadSnapshot`, `LastSeqNo`,
`EvtsById` and `NextEvt`. -/
theorem c2_inconsistent_spawn_panics {Cmd Evt State B Err M LErr SErr : Type}
    (bh : ES.Behavior Cmd Evt State B Err) (id : Nat) (b0 : B)
    (snap : ES.Snapshot State M) (log : ES.Journal Evt)
    (h : ES.lastSeqNo log < snap.seqNo) :
    @ES.spawn Cmd Evt State B Err M LErr SErr bh id b0 (.ok (some snap)) log
      = (.panicked "snapshot_seq_no must be less than or equal to last_seq_no",
          []) := by
  unfold ES.spawn
  have hn : ¬ snap.seqNo ≤ ES.lastSeqNo log := by omega
  simp [hn]

/-- Witness for the amended C2 at a concrete inconsistent store pair:
snapshot at sequence number 3 over an empty event log. -/
theorem c2_inconsistent_spawn_panics_witness :
    @ES.spawn Unit Unit Nat Nat Unit Unit Unit Unit
        ⟨fun _ _ => .ok [], fun b _ _ => (b, none), fun _ s => s⟩
        0 0 (.ok (some ⟨3, 9, none⟩)) []
      = (.panicked "snapshot_seq_no must be less than or equal to last_seq_no",
          []) :=
  c2_inconsistent_spawn_panics _ 0 0 _ _ (by decide)

/-- C4: starting from empty stores, after any list of commands that together
produced `k` events in their accepted replies (rejected commands contribute
no events), the entity's in-memory `seq_no` equals `k`, the journal contains
events at exactly the sequence numbers `1..k`, and the in-memory `seq_no`
equals the log's `last_seq_no`.  Because this holds for every command list,
it holds at every quiescent point between commands. -/
theorem c4_monotonicity {Cmd Evt State B Err : Type}
    (bh : ES.Behavior Cmd Evt State B Err) (id : Nat) (b0 : B)
    (cmds : List Cmd) :
    (ES.runLoop bh (ES.initSys id b0) cmds).1.entity.seqNo
        = (((ES.runLoop bh (ES.initSys id b0) cmds).2.map ES.replyEvtCount).sum) ∧
      (ES.runLoop bh (ES.initSys id b0) cmds).1.log.map Prod.fst
        = List.range' 1
            (((ES.runLoop bh (ES.initSys id b0) cmds).2.map ES.replyEvtCount).sum) ∧
      ES.lastSeqNo (ES.runLoop bh (ES.initSys id b0) cmds).1.log
        = (ES.runLoop bh (ES.initSys id b0) cmds).1.entity.seqNo := by
  have h := ES.runLoop_inv bh cmds (ES.initSys id b0) (by simp [ES.initSys])
  have hseq : (ES.runLoop bh (ES.initSys id b0) cmds).1.entity.seqNo
      = (((ES.runLoop bh (ES.initSys id b0) cmds).2.map ES.replyEvtCount).sum) := by
    have := h.2
    simpa [ES.initSys] using this
  refine ⟨hseq, ?_, ?_⟩
  · rw [← hseq]; exact h.1
  · exact ES.lastSeqNo_of_wf _ _ h.1

/-- C5: for every successful spawn over a contiguous journal, recovery calls
`handle_evt` exactly once per stored event, for the sequence numbers
`snapshot_seq_no + 1` through `last_seq_no` in ascending order with the
stored event at each sequence number (and not at all when the snapshot is
already at `last_seq_no`); the trace contains no snapshot-store save (every
`Some` returned during replay is ignored); and the constructed entity's
`seq_no` equals `last_seq_no`.  The second half states the same for a spawn
that found no snapshot, which replays the whole journal. -/
theorem c5_recovery_replay {Cmd Evt State B Err M LErr SErr : Type}
    (bh : ES.Behavior Cmd Evt State B Err) (id : Nat) (b0 : B)
    (evts : List Evt) (s : Nat) (stv : State) (md : Option M)
    (hs : s ≤ evts.length) :
    ((@ES.spawn Cmd Evt State B Err M LErr SErr bh id b0
          (.ok (some ⟨s, stv, md⟩)) (ES.mkLog evts)).1.seqNoOf
        = some evts.length
      ∧ (@ES.spawn Cmd Evt State B Err M LErr SErr bh id b0
            (.ok (some ⟨s, stv, md⟩)) (ES.mkLog evts)).2
          = ((List.range' (s + 1) (evts.length - s)).zip (evts.drop s)).map
              (fun p => ES.Call.handleEvtCall p.1 p.2)
      ∧ (@ES.spawn Cmd Evt State B Err M LErr SErr bh id b0
            (.ok (some ⟨s, stv, md⟩)) (ES.mkLog evts)).2.all
            (fun c => ! c.isSave) = true)
    ∧ ((@ES.spawn Cmd Evt State B Err M LErr SErr bh id b0
          (.ok (none : Option (ES.Snapshot State M))) (ES.mkLog evts)).1.seqNoOf
        = some evts.length
      ∧ (@ES.spawn Cmd Evt State B Err M LErr SErr bh id b0
            (.ok (none : Option (ES.Snapshot State M))) (ES.mkLog evts)).2
          = (ES.mkLog evts).map (fun p => ES.Call.handleEvtCall p.1 p.2)
      ∧ (@ES.spawn Cmd Evt State B Err M LErr SErr bh id b0
            (.ok (none : Option (ES.Snapshot State M))) (ES.mkLog evts)).2.all
            (fun c => ! c.isSave) = true) := by
  have hsome := @ES.spawn_some_eq Cmd Evt State B Err M LErr SErr
    bh id b0 evts s stv md hs
  have hnone := @ES.spawn_none_eq Cmd Evt State B Err M LErr SErr bh id b0 evts
  refine ⟨⟨?_, ?_, ?_⟩, ?_, ?_, ?_⟩
  · rw [hsome]; rfl
  · rw [hsome]; exact ES.replay_snd bh _ _
  · rw [hsome, ES.replay_snd]
    simp only [List.all_eq_true, List.mem_map]
    intro c hc
    obtain ⟨p, _, hp⟩ := hc
    subst hp
    rfl
  · rw [hnone]; rfl
  · rw [hnone]; exact ES.replay_snd bh _ _
  · rw [hnone, ES.replay_snd]
    simp only [List.all_eq_true, List.mem_map]
    intro c hc
    obtain ⟨p, _, hp⟩ := hc
    subst hp
    rfl

/-- Witness for C5: a concrete counter-like behavior over a journal of three
events with a snapshot at sequence number 1; recovery replays exactly the
events at sequence numbers 2 and 3 and ends at seq_no 3. -/
theorem c5_recovery_replay_witness :
    ((@ES.spawn Unit Nat Nat Nat Unit Unit Unit Unit
          ⟨fun _ _ => .ok [], fun b _ e => (b + e, none), fun _ s => s⟩
          0 0 (.ok (some ⟨1, 10, none⟩)) (ES.mkLog [10, 20, 30])).1.seqNoOf
        = some 3
      ∧ (@ES.spawn Unit Nat Nat Nat Unit Unit Unit Unit
            ⟨fun _ _ => .ok [], fun b _ e => (b + e, none), fun _ s => s⟩
            0 0 (.ok (some ⟨1, 10, none⟩)) (ES.mkLog [10, 20, 30])).2
          = ((List.range' 2 2).zip [20, 30]).map
              (fun p => ES.Call.handleEvtCall p.1 p.2)
      ∧ (@ES.spawn Unit Nat Nat Nat Unit Unit Unit Unit
            ⟨fun _ _ => .ok [], fun b _ e => (b + e, none), fun _ s => s⟩
            0 0 (.ok (some ⟨1, 10, none⟩)) (ES.mkLog [10, 20, 30])).2.all
            (fun c => ! c.isSave) = true)
    ∧ ((@ES.spawn Unit Nat Nat Nat Unit Unit Unit Unit
          ⟨fun _ _ => .ok [], fun b _ e => (b + e, none), fun _ s => s⟩
          0 0 (.ok (none : Option (ES.Snapshot Nat Unit)))
          (ES.mkLog [10, 20, 30])).1.seqNoOf = some 3
      ∧ (@ES.spawn Unit Nat Nat Nat Unit Unit Unit Unit
            ⟨fun _ _ => .ok [], fun b _ e => (b + e, none), fun _ s => s⟩
            0 0 (.ok (none : Option (ES.Snapshot Nat Unit)))
            (ES.mkLog [10, 20, 30])).2
          = (ES.mkLog [10, 20, 30]).map (fun p => ES.Call.handleEvtCall p.1 p.2)
      ∧ (@ES.spawn Unit Nat Nat Nat Unit Unit Unit Unit
            ⟨fun _ _ => .ok [], fun b _ e => (b + e, none), fun _ s => s⟩
            0 0 (.ok (none : Option (ES.Snapshot Nat Unit)))
            (ES.mkLog [10, 20, 30])).2.all
            (fun c => ! c.isSave) = true) :=
  c5_recovery_replay
    ⟨fun _ _ => .ok [], fun b _ e => (b + e, none), fun _ s => s⟩
    0 0 [10, 20, 30] 1 10 none (by decide)

/-- C7: when the behavior accepts a command with an empty event batch, the
runtime makes no collaborator call at all (no persist, no handle_evt, no
snapshot save), leaves the whole system state (including seq_no) unchanged,
and replies with the empty event list; the loop then continues with the
remaining commands against the unchanged state. -/
theorem c7_empty_batch_noop {Cmd Evt State B Err : Type}
    (bh : ES.Behavior Cmd Evt State B Err) (sys : ES.Sys Evt State B)
    (cmd : Cmd) (rest : List Cmd)
    (h : bh.handleCmd sys.entity.eventSourced cmd = .ok []) :
    ES.entityStep bh sys cmd = (sys, .ok [], []) ∧
      ES.runLoop bh sys (cmd :: rest) =
        ((ES.runLoop bh sys rest).1, .ok [] :: (ES.runLoop bh sys rest).2) := by
  have hstep : ES.entityStep bh sys cmd = (sys, .ok [], []) := by
    simp [ES.entityStep, h]
  refine ⟨hstep, ?_⟩
  simp only [ES.runLoop, hstep]

/-- Witness for C7 at a concrete behavior that accepts every command with an
empty batch. -/
theorem c7_empty_batch_noop_witness :
    ES.entityStep
        (⟨fun _ _ => .ok [], fun b _ _ => (b, none), fun b _ => b⟩ :
          ES.Behavior Unit Unit Unit Nat Unit)
        (ES.initSys 0 0) () = (ES.initSys 0 0, .ok [], []) ∧
      ES.runLoop
          (⟨fun _ _ => .ok [], fun b _ _ => (b, none), fun b _ => b⟩ :
            ES.Behavior Unit Unit Unit Nat Unit)
          (ES.initSys 0 0) [(), ()] =
        ((ES.runLoop
            (⟨fun _ _ => .ok [], fun b _ _ => (b, none), fun b _ => b⟩ :
              ES.Behavior Unit Unit Unit Nat Unit)
            (ES.initSys 0 0) [()]).1,
          .ok [] :: (ES.runLoop
            (⟨fun _ _ => .ok [], fun b _ _ => (b, none), fun b _ => b⟩ :
              ES.Behavior Unit Unit Unit Nat Unit)
            (ES.initSys 0 0) [()]).2) :=
  c7_empty_batch_noop _ _ () [()] rfl

/-- C6: when the behavior rejects a command with a domain error, the runtime
sends exactly that error on the reply channel, makes no collaborator call
(no persist, no handle_evt, no save), leaves the whole system state
(seq_no, behavior state, log, snapshot store) unchanged, and the loop then
continues with the remaining commands against the unchanged state. -/
theorem c6_rejection_isolation {Cmd Evt State B Err : Type}
    (bh : ES.Behavior Cmd Evt State B Err) (sys : ES.Sys Evt State B)
    (cmd : Cmd) (e : Err) (rest : List Cmd)
    (h : bh.handleCmd sys.entity.eventSourced cmd = .error e) :
    ES.entityStep bh sys cmd = (sys, .error e, []) ∧
      ES.runLoop bh sys (cmd :: rest) =
        ((ES.runLoop bh sys rest).1, .error e :: (ES.runLoop bh sys rest).2) := by
  have hstep : ES.entityStep bh sys cmd = (sys, .error e, []) := by
    simp [ES.entityStep, h]
  refine ⟨hstep, ?_⟩
  simp only [ES.runLoop, hstep]

/-- Witness for C6 at a concrete behavior that rejects every command. -/
theorem c6_rejection_isolation_witness :
    ES.entityStep
        (⟨fun _ _ => .error 7, fun b _ _ => (b, none), fun b _ => b⟩ :
          ES.Behavior Unit Unit Unit Nat Nat)
        (ES.initSys 0 0) () = (ES.initSys 0 0, .error 7, []) ∧
      ES.runLoop
          (⟨fun _ _ => .error 7, fun b _ _ => (b, none), fun b _ => b⟩ :
            ES.Behavior Unit Unit Unit Nat Nat)
          (ES.initSys 0 0) [(), ()] =
        ((ES.runLoop
            (⟨fun _ _ => .error 7, fun b _ _ => (b, none), fun b _ => b⟩ :
              ES.Behavior Unit Unit Unit Nat Nat)
            (ES.initSys 0 0) [()]).1,
          .error 7 :: (ES.runLoop
            (⟨fun _ _ => .error 7, fun b _ _ => (b, none), fun b _ => b⟩ :
              ES.Behavior Unit Unit Unit Nat Nat)
            (ES.initSys 0 0) [()]).2) :=
  c6_rejection_isolation _ _ () 7 [()] rfl

/-- C3 counterexample: the Postgres store accumulates snapshots.  Starting
from a table already holding the snapshot (id 7, seq_no 1), a save for id 7
at seq_no 2 appends a second row instead of replacing the first, leaving two
stored snapshots for the same id. -/
theorem c3_counterexample :
    Pg.save [(⟨7, 1, 10⟩ : Pg.Row Nat)] 7 ⟨2, by decide⟩ 20
        (fun b => (Except.ok b : Except Unit Nat))
      = .ok [⟨7, 1, 10⟩, ⟨7, 2, 20⟩]
    ∧ ([(⟨7, 1, 10⟩ : Pg.Row Nat), ⟨7, 2, 20⟩].filter
        (fun r => decide (r.id = 7))).length = 2 :=
  ⟨rfl, rfl⟩

/-- C3 amended: the NATS store does keep at most one snapshot per id — each
save overwrites the KV entry under the id's key and leaves other keys
unchanged.  The Postgres store instead appends one row per saved
(id, seq_no); its load compensates by returning the row with the maximal
seq_no for the id, so the latest snapshot is still the one recovered. -/
theorem c3_save_replacement_semantics {β : Type} :
    (∀ (kv : NatsSS.KV β) (id : Nat) (sn : SS.SeqNo) (st : β),
        NatsSS.save kv id sn st (fun b => (Except.ok b : Except Unit β))
          = .ok (fun k => if k = id then some ⟨sn.val, st⟩ else kv k))
    ∧ (∀ (id : Nat) (b1 b2 : β),
        Pg.save [(⟨id, 1, b1⟩ : Pg.Row β)] id ⟨2, by decide⟩ b2
            (fun b => (Except.ok b : Except Unit β))
          = .ok [⟨id, 1, b1⟩, ⟨id, 2, b2⟩]
        ∧ Pg.load [(⟨id, 1, b1⟩ : Pg.Row β), ⟨id, 2, b2⟩] id
            (fun b => (Except.ok b : Except Unit β))
          = .ok (some ⟨⟨2, by decide⟩, b2⟩)) := by
  refine ⟨fun kv id sn st => rfl, fun id b1 b2 => ⟨rfl, ?_⟩⟩
  have hf : [(⟨id, 1, b1⟩ : Pg.Row β), ⟨id, 2, b2⟩].filter
      (fun r => decide (r.id = id)) = [⟨id, 1, b1⟩, ⟨id, 2, b2⟩] := by
    simp
  simp only [Pg.load, hf]
  rfl

/-- C9: conversion of an untrusted `u64` to `SeqNo` fails exactly when the
value is 0; the Postgres load fails with `ZeroSeqNo` when the stored
snapshot row carries sequence number 0; the NATS load fails with
`InvalidSeqNo` when the stored snapshot blob carries sequence number 0. -/
theorem c9_zero_seq_no_rejected {β : Type} :
    (∀ n : Nat, SS.SeqNo.tryFromNat n = .error () ↔ n = 0)
    ∧ (∀ (id : Nat) (b : β),
        Pg.load [(⟨id, 0, b⟩ : Pg.Row β)] id
            (fun x => (Except.ok x : Except Unit β))
          = .error .zeroSeqNo)
    ∧ (∀ (id : Nat) (st : β),
        NatsSS.load
            (fun k =>
              if k = id then some (⟨0, st⟩ : NatsSS.ProtoSnapshot β) else none)
            id (fun x => (Except.ok x : Except Unit β))
          = .error .invalidSeqNo) := by
  refine ⟨fun n => ?_, fun id b => ?_, fun id st => ?_⟩
  · cases n with
    | zero => simp [SS.SeqNo.tryFromNat]
    | succ k => simp [SS.SeqNo.tryFromNat]
  · have hf : [(⟨id, 0, b⟩ : Pg.Row β)].filter (fun r => decide (r.id = id))
        = [⟨id, 0, b⟩] := by simp
    simp only [Pg.load, hf]
    rfl
  · simp only [NatsSS.load, if_pos]
    rfl

/-- C10: for every configuration, the SQL issued by save and load on the
constructed Postgres store targets the literal table "snapshots"; the
configured table name is substituted only into the setup DDL, so with a
non-default name (here "app_snapshots") the table setup creates is not the
one save and load access. -/
theorem c10_literal_table_name (cfg : Pg.Config) :
    Pg.tableAfter (Pg.saveSqlTokensOf (Pg.storeOfConfig cfg)) "INTO"
        = some "snapshots"
    ∧ Pg.tableAfter (Pg.loadSqlTokensOf (Pg.storeOfConfig cfg)) "FROM"
        = some "snapshots"
    ∧ Pg.tableAfter
        (Pg.setupSqlTokens
          ⟨"localhost", 5432, "postgres", "", "postgres", "prefer",
            "app_snapshots", true⟩) "EXISTS"
        = some "app_snapshots"
    ∧ ("app_snapshots" : String) ≠ "snapshots" := by
  refine ⟨rfl, rfl, by decide, by decide⟩
